import Mathlib

set_option maxRecDepth 100000

/-!
# Verification of the NWN2DataLib GFF file reader

Shallow embedding of the GFF (Generic File Format) reader of NWN2DataLib
(`GffFileReader.h`).  A GFF file is modelled as a list of bytes (naturals
below 256); all multi-byte quantities are little-endian, matching the
on-disk format.  The on-disk record layouts (`GFF_HEADER`,
`GFF_STRUCT_ENTRY`, `GFF_FIELD_ENTRY`, `GFF_LABEL_ENTRY`,
`GFF_CEXOLOCSTRING_ENTRY`) and the inline accessor templates
(`GetSmallFieldByName`, `GetLargeFieldByName`, `GetBYTE` … `GetDOUBLE`)
are taken from the header; routines whose bodies live in
`GffFileReader.cpp` (not part of the sampled sources) are modelled from
the specification, as indicated on each definition.
-/

namespace GffReader

/-- Little-endian value of a list of bytes (least significant byte first). -/
def leVal : List Nat → Nat
  | [] => 0
  | b :: bs => b + 256 * leVal bs

/-- Read `len` bytes at absolute offset `off`; fails when the range leaves
the file, as the bounds-checked `FileWrapper` reads do. -/
def readBytes (data : List Nat) (off len : Nat) : Option (List Nat) :=
  if off + len ≤ data.length then some ((data.drop off).take len) else none

/-- The (unchecked) little-endian 32-bit value at offset `off`. -/
def u32At (data : List Nat) (off : Nat) : Nat :=
  leVal ((data.drop off).take 4)

/-- Bounds-checked little-endian u32 read. -/
def readU32 (data : List Nat) (off : Nat) : Option Nat :=
  (readBytes data off 4).map leVal

/-- Little-endian byte encoding of `n` as a u32. -/
def u32le (n : Nat) : List Nat :=
  [n % 256, n / 256 % 256, n / 65536 % 256, n / 16777216 % 256]

/-- GFF field type codes, from `_GFF_FIELD_TYPE` in `GffFileReader.h`. -/
def GFF_BYTE : Nat := 0

def GFF_CHAR : Nat := 1

def GFF_WORD : Nat := 2

def GFF_SHORT : Nat := 3

def GFF_DWORD : Nat := 4

def GFF_INT : Nat := 5

def GFF_DWORD64 : Nat := 6

def GFF_INT64 : Nat := 7

def GFF_FLOAT : Nat := 8

def GFF_DOUBLE : Nat := 9

def GFF_CEXOSTRING : Nat := 10

def GFF_RESREF : Nat := 11

def GFF_CEXOLOCSTRING : Nat := 12

def GFF_VOID : Nat := 13

def GFF_STRUCT : Nat := 14

def GFF_LIST : Nat := 15

def GFF_RESERVED : Nat := 16

def GFF_VECTOR : Nat := 17

/-- The 56-byte GFF header, from `_GFF_HEADER` in `GffFileReader.h`: twelve
little-endian u32 table descriptors after the two four-byte tags. -/
structure GFF_HEADER where
  FileType : Nat
  Version : Nat
  StructOffset : Nat
  StructCount : Nat
  FieldOffset : Nat
  FieldCount : Nat
  LabelOffset : Nat
  LabelCount : Nat
  FieldDataOffset : Nat
  FieldDataCount : Nat
  FieldIndiciesOffset : Nat
  FieldIndiciesCount : Nat
  ListIndiciesOffset : Nat
  ListIndiciesCount : Nat
deriving Repr, DecidableEq

/-- A struct entry, from `_GFF_STRUCT_ENTRY`: 12 bytes on disk.  The
source names the first member `Type`, a reserved word here. -/
structure GFF_STRUCT_ENTRY where
  TypeTag : Nat
  DataOrDataOffset : Nat
  FieldCount : Nat
deriving Repr, DecidableEq

/-- A field entry, from `_GFF_FIELD_ENTRY`: 12 bytes on disk.  The source
names the first member `Type`, a reserved word here. -/
structure GFF_FIELD_ENTRY where
  TypeTag : Nat
  LabelIndex : Nat
  DataOrDataOffset : Nat
deriving Repr, DecidableEq

/-- Size in bytes of the on-disk header. -/
def GFF_HEADER_SIZE : Nat := 56

/-- Size in bytes of an on-disk struct entry. -/
def GFF_STRUCT_ENTRY_SIZE : Nat := 12

/-- Size in bytes of an on-disk field entry. -/
def GFF_FIELD_ENTRY_SIZE : Nat := 12

/-- Size in bytes of an on-disk label entry (`char Name[16]`). -/
def GFF_LABEL_ENTRY_SIZE : Nat := 16

/-- The tag `"GFF "` as a little-endian u32, the required `FileType`. -/
def GFF_MAGIC : Nat := leVal [0x47, 0x46, 0x46, 0x20]

/-- The tag `"V3.2"` as a little-endian u32, the required `Version`. -/
def GFF_VERSION_V32 : Nat := leVal [0x56, 0x33, 0x2E, 0x32]

/-- Decode the 56-byte header: the fourteen u32 fields in declared order at
offsets 0,4,…,52.  Fails when the file is shorter than the header. -/
def parseGffHeader (data : List Nat) : Option GFF_HEADER :=
  if GFF_HEADER_SIZE ≤ data.length then
    some {
      FileType := u32At data 0
      Version := u32At data 4
      StructOffset := u32At data 8
      StructCount := u32At data 12
      FieldOffset := u32At data 16
      FieldCount := u32At data 20
      LabelOffset := u32At data 24
      LabelCount := u32At data 28
      FieldDataOffset := u32At data 32
      FieldDataCount := u32At data 36
      FieldIndiciesOffset := u32At data 40
      FieldIndiciesCount := u32At data 44
      ListIndiciesOffset := u32At data 48
      ListIndiciesCount := u32At data 52 }
  else none

/-- A parsed reader: the raw bytes, the decoded header, and the default
localization language (`m_Language`). -/
structure GffFileReaderState where
  Data : List Nat
  Header : GFF_HEADER
  Language : Nat
deriving Repr, DecidableEq

/-- Modelled from the spec: the structural validation performed by
`GffFileReader::ParseGffFile` (its body, in `GffFileReader.cpp`, is not
among the sampled sources).  Per the spec, parsing fails fast at open
when the magic is not `"GFF "`, the version is not `"V3.2"`, any table
offset plus `count * stride` leaves the file, or the root struct index is
not below `StructCount`.  The byte-counted regions (field data, field
indices, list indices) have stride 1. -/
def ParseGffFile (data : List Nat) (lang : Nat) : Option GffFileReaderState :=
  match parseGffHeader data with
  | none => none
  | some hdr =>
    if hdr.FileType = GFF_MAGIC ∧ hdr.Version = GFF_VERSION_V32 ∧
        hdr.StructOffset + hdr.StructCount * GFF_STRUCT_ENTRY_SIZE ≤ data.length ∧
        hdr.FieldOffset + hdr.FieldCount * GFF_FIELD_ENTRY_SIZE ≤ data.length ∧
        hdr.LabelOffset + hdr.LabelCount * GFF_LABEL_ENTRY_SIZE ≤ data.length ∧
        hdr.FieldDataOffset + hdr.FieldDataCount ≤ data.length ∧
        hdr.FieldIndiciesOffset + hdr.FieldIndiciesCount ≤ data.length ∧
        hdr.ListIndiciesOffset + hdr.ListIndiciesCount ≤ data.length ∧
        0 < hdr.StructCount then
      some { Data := data, Header := hdr, Language := lang }
    else none

/-- Modelled from the spec: `GffFileReader::GetStructByIndex` (body in
`GffFileReader.cpp`, not among the sampled sources).  Reads the 12-byte
struct entry at `StructOffset + 12 * i`; per the spec invariant, every
index read via a table must be below that table count. -/
def GetStructByIndex (r : GffFileReaderState) (i : Nat) : Option GFF_STRUCT_ENTRY :=
  if i < r.Header.StructCount then
    match readU32 r.Data (r.Header.StructOffset + GFF_STRUCT_ENTRY_SIZE * i),
        readU32 r.Data (r.Header.StructOffset + GFF_STRUCT_ENTRY_SIZE * i + 4),
        readU32 r.Data (r.Header.StructOffset + GFF_STRUCT_ENTRY_SIZE * i + 8) with
    | some t, some d, some c => some { TypeTag := t, DataOrDataOffset := d, FieldCount := c }
    | _, _, _ => none
  else none

/-- Modelled from the spec: `GffFileReader::GetFieldByIndex` (body in
`GffFileReader.cpp`, not among the sampled sources).  Reads the 12-byte
field entry at `FieldOffset + 12 * i`. -/
def GetFieldEntryByIndex (r : GffFileReaderState) (i : Nat) : Option GFF_FIELD_ENTRY :=
  if i < r.Header.FieldCount then
    match readU32 r.Data (r.Header.FieldOffset + GFF_FIELD_ENTRY_SIZE * i),
        readU32 r.Data (r.Header.FieldOffset + GFF_FIELD_ENTRY_SIZE * i + 4),
        readU32 r.Data (r.Header.FieldOffset + GFF_FIELD_ENTRY_SIZE * i + 8) with
    | some t, some l, some d => some { TypeTag := t, LabelIndex := l, DataOrDataOffset := d }
    | _, _, _ => none
  else none

/-- Modelled from the spec: `GffFileReader::GetLabelByIndex` (body in
`GffFileReader.cpp`, not among the sampled sources).  A label is a
16-byte `char Name[16]` slab at `LabelOffset + 16 * i`, read as up to 16
bytes and stopping at the first NUL. -/
def GetLabelByIndex (r : GffFileReaderState) (i : Nat) : Option (List Nat) :=
  if i < r.Header.LabelCount then
    (readBytes r.Data (r.Header.LabelOffset + GFF_LABEL_ENTRY_SIZE * i)
        GFF_LABEL_ENTRY_SIZE).map (List.takeWhile (fun b => b ≠ 0))
  else none

/-- Modelled from the spec: the field-index resolution step of
`GffFileReader::GetFieldByName` (body in `GffFileReader.cpp`, not among
the sampled sources).  If `FieldCount = 1` the single field index is
`DataOrDataOffset` itself; otherwise `DataOrDataOffset` is a byte offset
into the field-index array from which `FieldCount` contiguous u32 field
indices are read (the spec fixes these as byte offsets). -/
def GetFieldIndices (r : GffFileReaderState) (s : GFF_STRUCT_ENTRY) : Option (List Nat) :=
  if s.FieldCount = 1 then some [s.DataOrDataOffset]
  else
    (List.range s.FieldCount).mapM fun k =>
      readU32 r.Data (r.Header.FieldIndiciesOffset + s.DataOrDataOffset + 4 * k)

/-- Modelled from the spec: the matching walk of
`GffFileReader::GetFieldByName`.  For each candidate field index, fetch
the field entry, fetch its label by `LabelIndex`, and compare it
case-sensitively (byte equality) with the requested name, stopping at
the first match. -/
def findFieldAux (r : GffFileReaderState) (name : List Nat) :
    List Nat → Option GFF_FIELD_ENTRY
  | [] => none
  | fi :: rest =>
    match GetFieldEntryByIndex r fi with
    | none => none
    | some fe =>
      match GetLabelByIndex r fe.LabelIndex with
      | none => none
      | some label =>
        if label = name then some fe else findFieldAux r name rest

/-- Modelled from the spec: `GffFileReader::GetFieldByName`, the name
lookup over a struct field-index set. -/
def GetFieldByName (r : GffFileReaderState) (s : GFF_STRUCT_ENTRY)
    (name : List Nat) : Option GFF_FIELD_ENTRY :=
  match GetFieldIndices r s with
  | none => none
  | some idxs => findFieldAux r name idxs

/-- From `GffFileReader.h` (`GffStruct::GetSmallFieldByName`): look the
field up by name, require the declared type to equal the requested type
(returning the empty option on mismatch), then `memcpy` the low
`size` bytes of the 32-bit `DataOrDataOffset` into the result — the
inline decoding for types of at most 4 bytes on a little-endian host. -/
def GetSmallFieldByName (r : GffFileReaderState) (s : GFF_STRUCT_ENTRY)
    (fieldType size : Nat) (name : List Nat) : Option Nat :=
  match GetFieldByName r s name with
  | none => none
  | some fe =>
    if fe.TypeTag = fieldType then some (fe.DataOrDataOffset % 256 ^ size)
    else none

/-- Modelled from the spec: `GffFileReader::GffStruct::ValidateFieldDataRange`
(body in `GffFileReader.cpp`, not among the sampled sources).  A field
data access is valid when the in-blob offset plus the payload length
stays inside the field-data blob. -/
def ValidateFieldDataRange (r : GffFileReaderState) (dataOffset len : Nat) : Bool :=
  dataOffset + len ≤ r.Header.FieldDataCount

/-- Modelled from the spec: `GffFileReader::ReadFieldData` (body in
`GffFileReader.cpp`, not among the sampled sources).  Reads bytes from
the field-data blob, which starts at `FieldDataOffset` in the file. -/
def ReadFieldData (r : GffFileReaderState) (idx len : Nat) : Option (List Nat) :=
  readBytes r.Data (r.Header.FieldDataOffset + idx) len

/-- Modelled from the spec: `GffFileReader::GffStruct::GetLargeFieldData`
(body in `GffFileReader.cpp`, not among the sampled sources).  Validates
lazily, per access, that `DataOrDataOffset + off + size` lies inside the
field-data blob, then reads the payload bytes from the blob. -/
def GetLargeFieldData (r : GffFileReaderState) (fe : GFF_FIELD_ENTRY)
    (size off : Nat) : Option (List Nat) :=
  if ValidateFieldDataRange r (fe.DataOrDataOffset + off) size then
    ReadFieldData r (fe.DataOrDataOffset + off) size
  else none

/-- From `GffFileReader.h` (`GffStruct::GetLargeFieldByName`): look the
field up by name, require the declared type to equal the requested type
(empty option on mismatch), then read `size` payload bytes from the
field-data blob at the entry offset, decoded little-endian. -/
def GetLargeFieldByName (r : GffFileReaderState) (s : GFF_STRUCT_ENTRY)
    (fieldType size : Nat) (name : List Nat) : Option Nat :=
  match GetFieldByName r s name with
  | none => none
  | some fe =>
    if fe.TypeTag = fieldType then (GetLargeFieldData r fe size 0).map leVal
    else none

/-- From `GffFileReader.h`: `GffStruct::GetBYTE`. -/
def GetBYTE (r : GffFileReaderState) (s : GFF_STRUCT_ENTRY) (name : List Nat) : Option Nat :=
  GetSmallFieldByName r s GFF_BYTE 1 name

/-- From `GffFileReader.h`: `GffStruct::GetCHAR` (`int8_t` payload, one
byte; the raw byte is returned here). -/
def GetCHAR (r : GffFileReaderState) (s : GFF_STRUCT_ENTRY) (name : List Nat) : Option Nat :=
  GetSmallFieldByName r s GFF_CHAR 1 name

/-- From `GffFileReader.h`: `GffStruct::GetWORD`. -/
def GetWORD (r : GffFileReaderState) (s : GFF_STRUCT_ENTRY) (name : List Nat) : Option Nat :=
  GetSmallFieldByName r s GFF_WORD 2 name

/-- From `GffFileReader.h`: `GffStruct::GetSHORT` (`int16_t` payload, two
bytes; the raw 16-bit pattern is returned here). -/
def GetSHORT (r : GffFileReaderState) (s : GFF_STRUCT_ENTRY) (name : List Nat) : Option Nat :=
  GetSmallFieldByName r s GFF_SHORT 2 name

/-- From `GffFileReader.h`: `GffStruct::GetDWORD`. -/
def GetDWORD (r : GffFileReaderState) (s : GFF_STRUCT_ENTRY) (name : List Nat) : Option Nat :=
  GetSmallFieldByName r s GFF_DWORD 4 name

/-- From `GffFileReader.h`: `GffStruct::GetINT` (`int32_t` payload; the raw
32-bit pattern is returned here). -/
def GetINT (r : GffFileReaderState) (s : GFF_STRUCT_ENTRY) (name : List Nat) : Option Nat :=
  GetSmallFieldByName r s GFF_INT 4 name

/-- From `GffFileReader.h`: `GffStruct::GetDWORD64`, exactly as written
there: the out-parameter is declared `int32_t`, so the template reads
`sizeof(int32_t) = 4` bytes of the 8-byte DWORD64 payload. -/
def GetDWORD64 (r : GffFileReaderState) (s : GFF_STRUCT_ENTRY) (name : List Nat) : Option Nat :=
  GetLargeFieldByName r s GFF_DWORD64 4 name

/-- From `GffFileReader.h`: `GffStruct::GetINT64` (`int64_t` payload, 8
bytes from the field-data blob; raw 64-bit pattern returned here). -/
def GetINT64 (r : GffFileReaderState) (s : GFF_STRUCT_ENTRY) (name : List Nat) : Option Nat :=
  GetLargeFieldByName r s GFF_INT64 8 name

/-- From `GffFileReader.h`: `GffStruct::GetFLOAT` (4-byte inline payload;
the raw IEEE-754 bit pattern is returned here). -/
def GetFLOAT (r : GffFileReaderState) (s : GFF_STRUCT_ENTRY) (name : List Nat) : Option Nat :=
  GetSmallFieldByName r s GFF_FLOAT 4 name

/-- From `GffFileReader.h`: `GffStruct::GetDOUBLE` (8-byte payload in the
field-data blob; the raw IEEE-754 bit pattern is returned here). -/
def GetDOUBLE (r : GffFileReaderState) (s : GFF_STRUCT_ENTRY) (name : List Nat) : Option Nat :=
  GetLargeFieldByName r s GFF_DOUBLE 8 name

/-- Modelled from the spec: `GffStruct::GetCExoString` (body in
`GffFileReader.cpp`, not among the sampled sources).  On-disk format per
the spec: `u32 length` + bytes, not NUL-terminated, in the field-data
blob; the accessor requires the declared type to be CExoString. -/
def GetCExoString (r : GffFileReaderState) (s : GFF_STRUCT_ENTRY)
    (name : List Nat) : Option (List Nat) :=
  match GetFieldByName r s name with
  | none => none
  | some fe =>
    if fe.TypeTag = GFF_CEXOSTRING then
      match GetLargeFieldData r fe 4 0 with
      | none => none
      | some lenB => GetLargeFieldData r fe (leVal lenB) 4
    else none

/-- Modelled from the spec: `GffStruct::GetResRef` (body in
`GffFileReader.cpp`, not among the sampled sources).  On-disk format per
the spec: `u8 length` + bytes in the field-data blob. -/
def GetResRef (r : GffFileReaderState) (s : GFF_STRUCT_ENTRY)
    (name : List Nat) : Option (List Nat) :=
  match GetFieldByName r s name with
  | none => none
  | some fe =>
    if fe.TypeTag = GFF_RESREF then
      match GetLargeFieldData r fe 1 0 with
      | none => none
      | some lenB => GetLargeFieldData r fe (leVal lenB) 1
    else none

/-- Modelled from the spec: `GffStruct::GetVOID` (body in
`GffFileReader.cpp`, not among the sampled sources).  On-disk format:
`u32 length` + raw bytes in the field-data blob. -/
def GetVOID (r : GffFileReaderState) (s : GFF_STRUCT_ENTRY)
    (name : List Nat) : Option (List Nat) :=
  match GetFieldByName r s name with
  | none => none
  | some fe =>
    if fe.TypeTag = GFF_VOID then
      match GetLargeFieldData r fe 4 0 with
      | none => none
      | some lenB => GetLargeFieldData r fe (leVal lenB) 4
    else none

/-- A CExoLocString substring: `StringID = (LanguageID << 1) | Gender`
plus the text bytes, from `_GFF_CEXOLOCSUBSTRING_ENTRY`. -/
structure GFF_CEXOLOCSUBSTRING_ENTRY where
  StringID : Nat
  Text : List Nat
deriving Repr, DecidableEq

/-- Parse `n` CExoLocString substrings starting at absolute offset `off`:
each is `u32 StringID`, `u32 StringLength`, then that many text bytes. -/
def parseSubStrings (data : List Nat) : Nat → Nat → Option (List GFF_CEXOLOCSUBSTRING_ENTRY)
  | _, 0 => some []
  | off, n + 1 =>
    match readU32 data off, readU32 data (off + 4) with
    | some sid, some slen =>
      match readBytes data (off + 8) slen with
      | none => none
      | some txt =>
        match parseSubStrings data (off + 8 + slen) n with
        | none => none
        | some rest => some ({ StringID := sid, Text := txt } :: rest)
    | _, _ => none

/-- Modelled from the spec: the resolution order of
`GffStruct::GetCExoLocString` — the reader language preference first
(a substring whose `StringID >> 1` is the preferred language), then the
first substring present, then the GFF-level `StringRef` looked up in a
supplied TLK, and otherwise the empty string. -/
def resolveLocString (lang : Nat) (subs : List GFF_CEXOLOCSUBSTRING_ENTRY)
    (stringRef : Nat) (tlk : Nat → Option (List Nat)) : List Nat :=
  match subs.find? (fun ss => ss.StringID / 2 = lang) with
  | some ss => ss.Text
  | none =>
    match subs with
    | ss :: _ => ss.Text
    | [] =>
      match tlk stringRef with
      | some t => t
      | none => []

/-- Modelled from the spec: `GffStruct::GetCExoLocString` (body in
`GffFileReader.cpp`, not among the sampled sources).  The field-data
payload is a `GFF_CEXOLOCSTRING_ENTRY` header (`u32 Length`,
`u32 StringRef`, `u32 StringCount`) followed by the substrings; the
resolved text follows `resolveLocString` with the reader default
language.  `tlk` stands for the resource manager talk-table lookup. -/
def GetCExoLocString (r : GffFileReaderState) (s : GFF_STRUCT_ENTRY)
    (name : List Nat) (tlk : Nat → Option (List Nat)) : Option (List Nat) :=
  match GetFieldByName r s name with
  | none => none
  | some fe =>
    if fe.TypeTag = GFF_CEXOLOCSTRING then
      match GetLargeFieldData r fe 4 0, GetLargeFieldData r fe 4 4,
          GetLargeFieldData r fe 4 8 with
      | some _totB, some refB, some cntB =>
        match parseSubStrings r.Data
            (r.Header.FieldDataOffset + fe.DataOrDataOffset + 12) (leVal cntB) with
        | none => none
        | some subs => some (resolveLocString r.Language subs (leVal refB) tlk)
      | _, _, _ => none
    else none

/-- Modelled from the spec: `GffStruct::GetStruct` (body in
`GffFileReader.cpp`, not among the sampled sources).  Per the accessor
contract comment in `GffFileReader.h`, getting an empty (or NULL) field
name returns the current structure itself; otherwise the named field
must be STRUCT-typed and its `DataOrDataOffset` is the struct index.
`none` stands for a NULL `FieldName`, `some []` for the empty string. -/
def GetStruct (r : GffFileReaderState) (s : GFF_STRUCT_ENTRY)
    (name : Option (List Nat)) : Option GFF_STRUCT_ENTRY :=
  match name with
  | none => some s
  | some nm =>
    if nm = [] then some s
    else
      match GetFieldByName r s nm with
      | none => none
      | some fe =>
        if fe.TypeTag = GFF_STRUCT then GetStructByIndex r fe.DataOrDataOffset
        else none

/-- Modelled from the spec: `GffStruct::GetListIndiciesData` (body in
`GffFileReader.cpp`, not among the sampled sources).  For LIST-typed
fields `DataOrDataOffset` is a byte offset into the list-index array;
the read is validated against the list-index region and performed at
`ListIndiciesOffset` in the file. -/
def GetListIndiciesData (r : GffFileReaderState) (fe : GFF_FIELD_ENTRY)
    (size off : Nat) : Option (List Nat) :=
  if fe.DataOrDataOffset + off + size ≤ r.Header.ListIndiciesCount then
    readBytes r.Data (r.Header.ListIndiciesOffset + fe.DataOrDataOffset + off) size
  else none

/-- Modelled from the spec: `GffStruct::GetListElement` (body in
`GffFileReader.cpp`, not among the sampled sources).  A list payload in
the list-index array is `u32 count` followed by `count` u32 struct
indices; element `i` is the struct at the `i`-th index. -/
def GetListElement (r : GffFileReaderState) (s : GFF_STRUCT_ENTRY)
    (name : List Nat) (i : Nat) : Option GFF_STRUCT_ENTRY :=
  match GetFieldByName r s name with
  | none => none
  | some fe =>
    if fe.TypeTag = GFF_LIST then
      match GetListIndiciesData r fe 4 0 with
      | none => none
      | some cntB =>
        if i < leVal cntB then
          match GetListIndiciesData r fe 4 (4 + 4 * i) with
          | none => none
          | some idxB => GetStructByIndex r (leVal idxB)
        else none
    else none

/-! ## Concrete GFF images

Reference-emitter style images used to evaluate the reader on closed
inputs.  `mkSingleFieldFile` lays out a minimal well-formed GFF V3.2
file: one root struct holding one field, one label, and a field-data
blob that ends exactly at the end of the file. -/

/-- Pad label bytes to the 16-byte on-disk `char Name[16]` slab. -/
def label16 (bs : List Nat) : List Nat :=
  bs ++ List.replicate (16 - bs.length) 0

/-- A single-field GFF image: header (56 bytes), one struct entry at 56,
one field entry at 68 (type `ftype`, label 0, `dataOrOff`), one label at
80, and the field-data blob at 96 running to the end of the file. -/
def mkSingleFieldFile (ftype dataOrOff : Nat) (label blob : List Nat) : List Nat :=
  [0x47, 0x46, 0x46, 0x20] ++ [0x56, 0x33, 0x2E, 0x32] ++
  u32le 56 ++ u32le 1 ++ u32le 68 ++ u32le 1 ++ u32le 80 ++ u32le 1 ++
  u32le 96 ++ u32le blob.length ++
  u32le (96 + blob.length) ++ u32le 0 ++
  u32le (96 + blob.length) ++ u32le 0 ++
  (u32le 0 ++ u32le 0 ++ u32le 1) ++
  (u32le ftype ++ u32le 0 ++ u32le dataOrOff) ++
  label16 label ++ blob

/-- The header a single-field image decodes to. -/
def mkSingleHeader (blobLen : Nat) : GFF_HEADER :=
  { FileType := GFF_MAGIC, Version := GFF_VERSION_V32
    StructOffset := 56, StructCount := 1
    FieldOffset := 68, FieldCount := 1
    LabelOffset := 80, LabelCount := 1
    FieldDataOffset := 96, FieldDataCount := blobLen
    FieldIndiciesOffset := 96 + blobLen, FieldIndiciesCount := 0
    ListIndiciesOffset := 96 + blobLen, ListIndiciesCount := 0 }

/-- The parsed reader for a single-field image. -/
def mkSingleReader (ftype dataOrOff : Nat) (label blob : List Nat)
    (lang : Nat) : GffFileReaderState :=
  { Data := mkSingleFieldFile ftype dataOrOff label blob
    Header := mkSingleHeader blob.length
    Language := lang }

/-- The root struct entry of a single-field image: one field, index 0. -/
def singleRoot : GFF_STRUCT_ENTRY :=
  { TypeTag := 0, DataOrDataOffset := 0, FieldCount := 1 }

/-- The label `"V"`. -/
def nmV : List Nat := [0x56]

/-- A DWORD64 field `V` holding `2^32`, stored as 8 little-endian bytes. -/
def dw64Reader : GffFileReaderState :=
  mkSingleReader GFF_DWORD64 0 nmV [0, 0, 0, 0, 1, 0, 0, 0] 0

/-- An INT64 field `V` holding bytes 1..8; offset 0 + size 8 ends exactly
at the end of the blob and of the file. -/
def boundReader : GffFileReaderState :=
  mkSingleReader GFF_INT64 0 nmV [1, 2, 3, 4, 5, 6, 7, 8] 0

/-- Same image but the field in-blob offset is 1, so offset + 8 exceeds
the 8-byte blob by one byte. -/
def boundReaderShifted : GffFileReaderState :=
  mkSingleReader GFF_INT64 1 nmV [1, 2, 3, 4, 5, 6, 7, 8] 0

/-- The label `"Mod_Name"`. -/
def nmModName : List Nat := [0x4D, 0x6F, 0x64, 0x5F, 0x4E, 0x61, 0x6D, 0x65]

/-- The bytes of `"Hello"`. -/
def txtHello : List Nat := [0x48, 0x65, 0x6C, 0x6C, 0x6F]

/-- The bytes of `"Bonjour"`. -/
def txtBonjour : List Nat := [0x42, 0x6F, 0x6E, 0x6A, 0x6F, 0x75, 0x72]

/-- The scenario `Mod_Name: CExoLocString{ StringRef = 16777216,
Substrings = [(0, "Hello")] }`, reader language English (0). -/
def locReader : GffFileReaderState :=
  mkSingleReader GFF_CEXOLOCSTRING 0 nmModName
    (u32le 21 ++ u32le 16777216 ++ u32le 1 ++ u32le 0 ++ u32le 5 ++ txtHello) 0

/-- A locstring whose only substring is French (`StringID = 2`), reader
language English: resolution falls back to the first substring. -/
def locReaderFr : GffFileReaderState :=
  mkSingleReader GFF_CEXOLOCSTRING 0 nmModName
    (u32le 23 ++ u32le 5 ++ u32le 1 ++ u32le 2 ++ u32le 7 ++ txtBonjour) 0

/-- A locstring with no substrings and `StringRef = 5`: resolution falls
back to the talk table, else the empty string. -/
def locReaderRef : GffFileReaderState :=
  mkSingleReader GFF_CEXOLOCSTRING 0 nmModName
    (u32le 8 ++ u32le 5 ++ u32le 0) 0

/-- The label `"ABC"`. -/
def nmABC : List Nat := [0x41, 0x42, 0x43]

/-- The label `"abc"` (lowercase). -/
def nmabc : List Nat := [0x61, 0x62, 0x63]

/-- The label `"Lst"`. -/
def nmLst : List Nat := [0x4C, 0x73, 0x74]

/-- A two-field image: root struct with `FieldCount = 2` whose
`DataOrDataOffset` is byte offset 0 into the field-index array; fields
`ABC` (DWORD, inline value 7) and `Lst` (LIST, byte offset 0 into the
list-index array, two elements: structs 1 and 2). -/
def multiFile : List Nat :=
  [0x47, 0x46, 0x46, 0x20] ++ [0x56, 0x33, 0x2E, 0x32] ++
  u32le 56 ++ u32le 3 ++ u32le 92 ++ u32le 2 ++ u32le 116 ++ u32le 2 ++
  u32le 148 ++ u32le 0 ++ u32le 148 ++ u32le 8 ++ u32le 156 ++ u32le 12 ++
  (u32le 0 ++ u32le 0 ++ u32le 2) ++
  (u32le 101 ++ u32le 0 ++ u32le 0) ++
  (u32le 102 ++ u32le 0 ++ u32le 0) ++
  (u32le GFF_DWORD ++ u32le 0 ++ u32le 7) ++
  (u32le GFF_LIST ++ u32le 1 ++ u32le 0) ++
  label16 nmABC ++ label16 nmLst ++
  (u32le 0 ++ u32le 1) ++
  (u32le 2 ++ u32le 1 ++ u32le 2)

/-- The header `multiFile` decodes to. -/
def multiHeader : GFF_HEADER :=
  { FileType := GFF_MAGIC, Version := GFF_VERSION_V32
    StructOffset := 56, StructCount := 3
    FieldOffset := 92, FieldCount := 2
    LabelOffset := 116, LabelCount := 2
    FieldDataOffset := 148, FieldDataCount := 0
    FieldIndiciesOffset := 148, FieldIndiciesCount := 8
    ListIndiciesOffset := 156, ListIndiciesCount := 12 }

/-- The parsed reader over `multiFile`. -/
def multiReader : GffFileReaderState :=
  { Data := multiFile, Header := multiHeader, Language := 0 }

/-- The root struct of `multiFile`: two fields via the field-index array. -/
def multiRoot : GFF_STRUCT_ENTRY :=
  { TypeTag := 0, DataOrDataOffset := 0, FieldCount := 2 }

/-- The label `"X"`. -/
def nmX : List Nat := [0x58]

/-- An image whose root struct has two fields that share the label `"X"`:
field 0 is a BYTE holding 1, field 1 is a WORD holding 2.  Name lookup
must stop at the first match. -/
def dupFile : List Nat :=
  [0x47, 0x46, 0x46, 0x20] ++ [0x56, 0x33, 0x2E, 0x32] ++
  u32le 56 ++ u32le 1 ++ u32le 68 ++ u32le 2 ++ u32le 92 ++ u32le 1 ++
  u32le 108 ++ u32le 0 ++ u32le 108 ++ u32le 8 ++ u32le 116 ++ u32le 0 ++
  (u32le 0 ++ u32le 0 ++ u32le 2) ++
  (u32le GFF_BYTE ++ u32le 0 ++ u32le 1) ++
  (u32le GFF_WORD ++ u32le 0 ++ u32le 2) ++
  label16 nmX ++
  (u32le 0 ++ u32le 1)

/-- The header `dupFile` decodes to. -/
def dupHeader : GFF_HEADER :=
  { FileType := GFF_MAGIC, Version := GFF_VERSION_V32
    StructOffset := 56, StructCount := 1
    FieldOffset := 68, FieldCount := 2
    LabelOffset := 92, LabelCount := 1
    FieldDataOffset := 108, FieldDataCount := 0
    FieldIndiciesOffset := 108, FieldIndiciesCount := 8
    ListIndiciesOffset := 116, ListIndiciesCount := 0 }

/-- The parsed reader over `dupFile`. -/
def dupReader : GffFileReaderState :=
  { Data := dupFile, Header := dupHeader, Language := 0 }

/-- The root struct of `dupFile`. -/
def dupRoot : GFF_STRUCT_ENTRY :=
  { TypeTag := 0, DataOrDataOffset := 0, FieldCount := 2 }

/-! ## Helper lemmas -/

theorem GetSmallFieldByName_mismatch (r : GffFileReaderState) (s : GFF_STRUCT_ENTRY)
    (name : List Nat) (fe : GFF_FIELD_ENTRY) (t sz : Nat)
    (h : GetFieldByName r s name = some fe) (hne : fe.TypeTag ≠ t) :
    GetSmallFieldByName r s t sz name = none := by
  unfold GetSmallFieldByName
  rw [h]
  simp [hne]

theorem GetLargeFieldByName_mismatch (r : GffFileReaderState) (s : GFF_STRUCT_ENTRY)
    (name : List Nat) (fe : GFF_FIELD_ENTRY) (t sz : Nat)
    (h : GetFieldByName r s name = some fe) (hne : fe.TypeTag ≠ t) :
    GetLargeFieldByName r s t sz name = none := by
  unfold GetLargeFieldByName
  rw [h]
  simp [hne]

theorem GetCExoString_mismatch (r : GffFileReaderState) (s : GFF_STRUCT_ENTRY)
    (name : List Nat) (fe : GFF_FIELD_ENTRY)
    (h : GetFieldByName r s name = some fe) (hne : fe.TypeTag ≠ GFF_CEXOSTRING) :
    GetCExoString r s name = none := by
  unfold GetCExoString
  rw [h]
  simp [hne]

theorem GetResRef_mismatch (r : GffFileReaderState) (s : GFF_STRUCT_ENTRY)
    (name : List Nat) (fe : GFF_FIELD_ENTRY)
    (h : GetFieldByName r s name = some fe) (hne : fe.TypeTag ≠ GFF_RESREF) :
    GetResRef r s name = none := by
  unfold GetResRef
  rw [h]
  simp [hne]

theorem GetVOID_mismatch (r : GffFileReaderState) (s : GFF_STRUCT_ENTRY)
    (name : List Nat) (fe : GFF_FIELD_ENTRY)
    (h : GetFieldByName r s name = some fe) (hne : fe.TypeTag ≠ GFF_VOID) :
    GetVOID r s name = none := by
  unfold GetVOID
  rw [h]
  simp [hne]

theorem GetCExoLocString_mismatch (r : GffFileReaderState) (s : GFF_STRUCT_ENTRY)
    (name : List Nat) (fe : GFF_FIELD_ENTRY) (tlk : Nat → Option (List Nat))
    (h : GetFieldByName r s name = some fe) (hne : fe.TypeTag ≠ GFF_CEXOLOCSTRING) :
    GetCExoLocString r s name tlk = none := by
  unfold GetCExoLocString
  rw [h]
  simp [hne]

/-! ## Claims -/

/-- C1: for every typed GFF field accessor invoked on a parsed struct, if
the named field exists but its declared type differs from the type the
accessor requests, the accessor returns the empty option.  (No accessor
can raise: in this embedding every accessor is a total function into
`Option`, matching the header contract that no data type accessor throws
on failure.) -/
theorem gff_accessor_type_mismatch_empty (r : GffFileReaderState)
    (s : GFF_STRUCT_ENTRY) (name : List Nat) (fe : GFF_FIELD_ENTRY)
    (h : GetFieldByName r s name = some fe) :
    (fe.TypeTag ≠ GFF_BYTE → GetBYTE r s name = none) ∧
    (fe.TypeTag ≠ GFF_CHAR → GetCHAR r s name = none) ∧
    (fe.TypeTag ≠ GFF_WORD → GetWORD r s name = none) ∧
    (fe.TypeTag ≠ GFF_SHORT → GetSHORT r s name = none) ∧
    (fe.TypeTag ≠ GFF_DWORD → GetDWORD r s name = none) ∧
    (fe.TypeTag ≠ GFF_INT → GetINT r s name = none) ∧
    (fe.TypeTag ≠ GFF_DWORD64 → GetDWORD64 r s name = none) ∧
    (fe.TypeTag ≠ GFF_INT64 → GetINT64 r s name = none) ∧
    (fe.TypeTag ≠ GFF_FLOAT → GetFLOAT r s name = none) ∧
    (fe.TypeTag ≠ GFF_DOUBLE → GetDOUBLE r s name = none) ∧
    (fe.TypeTag ≠ GFF_CEXOSTRING → GetCExoString r s name = none) ∧
    (fe.TypeTag ≠ GFF_RESREF → GetResRef r s name = none) ∧
    (∀ tlk, fe.TypeTag ≠ GFF_CEXOLOCSTRING → GetCExoLocString r s name tlk = none) ∧
    (fe.TypeTag ≠ GFF_VOID → GetVOID r s name = none) :=
  ⟨fun hne => GetSmallFieldByName_mismatch r s name fe _ _ h hne,
   fun hne => GetSmallFieldByName_mismatch r s name fe _ _ h hne,
   fun hne => GetSmallFieldByName_mismatch r s name fe _ _ h hne,
   fun hne => GetSmallFieldByName_mismatch r s name fe _ _ h hne,
   fun hne => GetSmallFieldByName_mismatch r s name fe _ _ h hne,
   fun hne => GetSmallFieldByName_mismatch r s name fe _ _ h hne,
   fun hne => GetLargeFieldByName_mismatch r s name fe _ _ h hne,
   fun hne => GetLargeFieldByName_mismatch r s name fe _ _ h hne,
   fun hne => GetSmallFieldByName_mismatch r s name fe _ _ h hne,
   fun hne => GetLargeFieldByName_mismatch r s name fe _ _ h hne,
   fun hne => GetCExoString_mismatch r s name fe h hne,
   fun hne => GetResRef_mismatch r s name fe h hne,
   fun tlk hne => GetCExoLocString_mismatch r s name fe tlk h hne,
   fun hne => GetVOID_mismatch r s name fe h hne⟩

/-- C1 witness: on the concrete image whose only field `V` is declared
DWORD64, every accessor of a different type returns the empty option. -/
theorem gff_accessor_type_mismatch_empty_witness :
    GetBYTE dw64Reader singleRoot nmV = none ∧
    GetINT64 dw64Reader singleRoot nmV = none ∧
    GetCExoString dw64Reader singleRoot nmV = none ∧
    GetCExoLocString dw64Reader singleRoot nmV (fun _ => none) = none := by
  have h := gff_accessor_type_mismatch_empty dw64Reader singleRoot nmV
    { TypeTag := GFF_DWORD64, LabelIndex := 0, DataOrDataOffset := 0 } (by decide)
  exact ⟨h.1 (by decide), h.2.2.2.2.2.2.2.1 (by decide),
    h.2.2.2.2.2.2.2.2.2.2.1 (by decide),
    h.2.2.2.2.2.2.2.2.2.2.2.2.1 (fun _ => none) (by decide)⟩

/-- C2: the claimed exact round-trip of DWORD64 fields fails on the code
as written: `GffStruct::GetDWORD64` takes an `int32_t` out-parameter, so
the accessor reads only `sizeof(int32_t) = 4` of the 8 payload bytes.
On a well-formed image whose DWORD64 field `V` holds `2^32`, the
accessor yields 0, while an 8-byte read of the same field (the evident
intent, as used by `GetINT64`) yields `2^32`. -/
theorem gff_dword64_roundtrip_truncates :
    ParseGffFile dw64Reader.Data 0 = some dw64Reader ∧
    GetDWORD64 dw64Reader singleRoot nmV = some 0 ∧
    GetLargeFieldByName dw64Reader singleRoot GFF_DWORD64 8 nmV = some 4294967296 ∧
    (0 : Nat) < 4294967296 :=
  ⟨by decide, by decide, by decide, by decide⟩

/-- C10: `GetStruct` with a NULL (`none`) or empty field name succeeds
and yields the current structure itself instead of performing a field
lookup; a non-empty name does perform the lookup (here `ABC` names a
DWORD field, so the struct accessor fails). -/
theorem gff_getstruct_null_or_empty_name :
    (∀ (r : GffFileReaderState) (s : GFF_STRUCT_ENTRY), GetStruct r s none = some s) ∧
    (∀ (r : GffFileReaderState) (s : GFF_STRUCT_ENTRY), GetStruct r s (some []) = some s) ∧
    GetStruct multiReader multiRoot none = some multiRoot ∧
    GetStruct multiReader multiRoot (some []) = some multiRoot ∧
    GetStruct multiReader multiRoot (some nmABC) = none :=
  ⟨fun _ _ => rfl, fun _ _ => rfl, by decide, by decide, by decide⟩

theorem mapM_option_eq_some_length {α β : Type} (f : α → Option β) :
    ∀ (xs : List α) (l : List β), xs.mapM f = some l → l.length = xs.length := by
  intro xs
  induction xs with
  | nil =>
    intro l h
    rw [List.mapM_nil] at h
    cases h
    rfl
  | cons x xs ih =>
    intro l h
    rw [List.mapM_cons] at h
    cases hfx : f x with
    | none => rw [hfx] at h; simp at h
    | some y =>
      rw [hfx] at h
      cases hm : xs.mapM f with
      | none => rw [hm] at h; simp at h
      | some ys =>
        rw [hm] at h
        simp only [Option.pure_def, Option.bind_eq_bind, Option.some_bind,
          Option.some.injEq] at h
        subst h
        simp [ih ys hm]

theorem mapM_option_eq_some_get (f : Nat → Option Nat) :
    ∀ (xs : List Nat) (l : List Nat), xs.mapM f = some l →
      ∀ (k x : Nat), xs.get? k = some x → l.get? k = f x := by
  intro xs
  induction xs with
  | nil =>
    intro l _ k x hx
    simp at hx
  | cons a xs ih =>
    intro l h k x hx
    rw [List.mapM_cons] at h
    cases hfa : f a with
    | none => rw [hfa] at h; simp at h
    | some y =>
      rw [hfa] at h
      cases hm : xs.mapM f with
      | none => rw [hm] at h; simp at h
      | some ys =>
        rw [hm] at h
        simp only [Option.pure_def, Option.bind_eq_bind, Option.some_bind,
          Option.some.injEq] at h
        subst h
        cases k with
        | zero =>
          simp only [List.get?_cons_zero, Option.some.injEq] at hx
          subst hx
          simp [hfa]
        | succ k =>
          simp only [List.get?_cons_succ] at hx ⊢
          exact ih ys hm k x hx

/-- C3: resolution of a struct field-index set.  When `FieldCount = 1`
the single field index is `DataOrDataOffset` itself; when
`FieldCount > 1`, `DataOrDataOffset` is a byte offset into the
field-index array and the set consists of `FieldCount` contiguous
little-endian u32 indices read from that offset (the k-th at byte offset
`DataOrDataOffset + 4k`). -/
theorem gff_field_index_set_resolution (r : GffFileReaderState)
    (s : GFF_STRUCT_ENTRY) :
    (s.FieldCount = 1 → GetFieldIndices r s = some [s.DataOrDataOffset]) ∧
    (1 < s.FieldCount → ∀ l, GetFieldIndices r s = some l →
      l.length = s.FieldCount ∧
      ∀ k, k < s.FieldCount →
        l.get? k = readU32 r.Data
          (r.Header.FieldIndiciesOffset + s.DataOrDataOffset + 4 * k)) := by
  constructor
  · intro h1
    unfold GetFieldIndices
    rw [if_pos h1]
  · intro hgt l hl
    unfold GetFieldIndices at hl
    rw [if_neg (by omega)] at hl
    refine ⟨?_, ?_⟩
    · rw [mapM_option_eq_some_length _ _ _ hl, List.length_range]
    · intro k hk
      exact mapM_option_eq_some_get _ _ _ hl k k (List.get?_range hk)

/-- C3 witness: on the two-field image, both cases of the resolution
evaluate concretely — the root indices are the u32s at byte offsets 0
and 4 of the field-index array, and on the single-field image the index
is the entry `DataOrDataOffset` itself. -/
theorem gff_field_index_set_resolution_witness :
    GetFieldIndices dw64Reader singleRoot = some [singleRoot.DataOrDataOffset] ∧
    ([0, 1] : List Nat).get? 1 = readU32 multiReader.Data
      (multiReader.Header.FieldIndiciesOffset + multiRoot.DataOrDataOffset + 4 * 1) :=
  ⟨(gff_field_index_set_resolution dw64Reader singleRoot).1 (by decide),
   ((gff_field_index_set_resolution multiReader multiRoot).2 (by decide)
      [0, 1] (by decide)).2 1 (by decide)⟩

/-- The field entry of the `boundReader` image (INT64 field `V`, in-blob
offset 0). -/
def boundFe : GFF_FIELD_ENTRY :=
  { TypeTag := GFF_INT64, LabelIndex := 0, DataOrDataOffset := 0 }

/-- C4: field-data accesses are validated lazily, per access.  A large
field read succeeds only when the in-blob offset plus the payload size
lies inside the field-data blob; on `boundReader` — whose 8-byte blob
ends exactly at the end of the file — the access with offset + size
equal to the end succeeds while the same access with one more byte of
size fails; and `boundReaderShifted`, whose field points one byte past
the blob end, still opens successfully at parse time, the failure
surfacing only at field access. -/
theorem gff_field_data_lazy_bounds :
    (∀ (r : GffFileReaderState) (fe : GFF_FIELD_ENTRY) (size off : Nat),
      ¬ fe.DataOrDataOffset + off + size ≤ r.Header.FieldDataCount →
      GetLargeFieldData r fe size off = none) ∧
    (∀ (r : GffFileReaderState) (fe : GFF_FIELD_ENTRY) (size off : Nat)
      (l : List Nat), GetLargeFieldData r fe size off = some l →
      fe.DataOrDataOffset + off + size ≤ r.Header.FieldDataCount) ∧
    (GetLargeFieldData boundReader boundFe 8 0 = some [1, 2, 3, 4, 5, 6, 7, 8] ∧
     GetLargeFieldData boundReader boundFe 9 0 = none ∧
     GetINT64 boundReader singleRoot nmV = some (leVal [1, 2, 3, 4, 5, 6, 7, 8])) ∧
    (ParseGffFile boundReaderShifted.Data 0 = some boundReaderShifted ∧
     GetINT64 boundReaderShifted singleRoot nmV = none) := by
  refine ⟨?_, ?_, ⟨by decide, by decide, by decide⟩, ⟨by decide, by decide⟩⟩
  · intro r fe size off hb
    unfold GetLargeFieldData ValidateFieldDataRange
    simp [hb]
  · intro r fe size off l h
    unfold GetLargeFieldData ValidateFieldDataRange at h
    by_cases hb : fe.DataOrDataOffset + off + size ≤ r.Header.FieldDataCount
    · exact hb
    · simp [hb] at h

/-- C4 witness: the general bound applied at a concrete out-of-range
access — reading 9 bytes from the 8-byte blob fails. -/
theorem gff_field_data_lazy_bounds_witness :
    GetLargeFieldData boundReader boundFe 9 0 = none :=
  gff_field_data_lazy_bounds.1 boundReader boundFe 9 0 (by decide)

/-- C5: CExoLocString resolution order.  Generally, `resolveLocString`
prefers a substring in the requested language, then the first substring
present, then the talk-table text for the GFF-level `StringRef`, and
otherwise yields the empty string; concretely, on full images:
`Mod_Name: CExoLocString{StringRef = 16777216, Substrings = [(0, "Hello")]}`
read with language preference English yields `"Hello"`; a French-only
locstring read with English preference falls back to its first
substring; a substring-less locstring falls back to the TLK text for its
`StringRef`, else to the empty string. -/
theorem gff_cexolocstring_resolution :
    (∀ (lang sref : Nat) (subs : List GFF_CEXOLOCSUBSTRING_ENTRY)
      (tlk : Nat → Option (List Nat)) (ss : GFF_CEXOLOCSUBSTRING_ENTRY),
      subs.find? (fun x => x.StringID / 2 = lang) = some ss →
      resolveLocString lang subs sref tlk = ss.Text) ∧
    (∀ (lang sref : Nat) (s0 : GFF_CEXOLOCSUBSTRING_ENTRY)
      (rest : List GFF_CEXOLOCSUBSTRING_ENTRY) (tlk : Nat → Option (List Nat)),
      (s0 :: rest).find? (fun x => x.StringID / 2 = lang) = none →
      resolveLocString lang (s0 :: rest) sref tlk = s0.Text) ∧
    (∀ (lang sref : Nat) (tlk : Nat → Option (List Nat)) (t : List Nat),
      tlk sref = some t → resolveLocString lang [] sref tlk = t) ∧
    (∀ (lang sref : Nat) (tlk : Nat → Option (List Nat)),
      tlk sref = none → resolveLocString lang [] sref tlk = []) ∧
    GetCExoLocString locReader singleRoot nmModName (fun _ => none) = some txtHello ∧
    GetCExoLocString locReaderFr singleRoot nmModName (fun _ => none) = some txtBonjour ∧
    GetCExoLocString locReaderRef singleRoot nmModName
      (fun n => if n = 5 then some [0x54, 0x4C, 0x4B] else none) = some [0x54, 0x4C, 0x4B] ∧
    GetCExoLocString locReaderRef singleRoot nmModName (fun _ => none) = some [] := by
  refine ⟨?_, ?_, ?_, ?_, by decide, by decide, by decide, by decide⟩
  · intro lang sref subs tlk ss hf
    unfold resolveLocString
    rw [hf]
  · intro lang sref s0 rest tlk hf
    unfold resolveLocString
    rw [hf]
  · intro lang sref tlk t ht
    unfold resolveLocString
    simp [ht]
  · intro lang sref tlk ht
    unfold resolveLocString
    simp [ht]

/-- C5 witness: the general language-preference clause applied to the
concrete substring list of the claim scenario. -/
theorem gff_cexolocstring_resolution_witness :
    resolveLocString 0 [{ StringID := 0, Text := txtHello }] 16777216
      (fun _ => none) = txtHello :=
  gff_cexolocstring_resolution.1 0 16777216 [{ StringID := 0, Text := txtHello }]
    (fun _ => none) { StringID := 0, Text := txtHello } (by decide)

/-- The image of `dw64Reader` with its first magic byte corrupted. -/
def badMagicFile : List Nat :=
  [0x42, 0x46, 0x46, 0x20] ++ List.drop 4 dw64Reader.Data

/-- The image of `dw64Reader` with version `"V3.3"` instead of `"V3.2"`. -/
def badVersionFile : List Nat :=
  List.take 4 dw64Reader.Data ++ [0x56, 0x33, 0x2E, 0x33] ++
  List.drop 8 dw64Reader.Data

/-- The image of `dw64Reader` truncated by four bytes, so the field-data table
(offset 96, 8 bytes) extends past the end of the file. -/
def truncatedFile : List Nat :=
  List.take 100 dw64Reader.Data

/-- C6: the reader fails fast at open on file-level structural errors.
Whenever the decoded header has the wrong `"GFF "` magic, the wrong
`"V3.2"` version, or any table whose offset plus `count * stride`
extends past the end of the file, `ParseGffFile` yields `none` (the
constructor raises), so no reader exists on which a later field access
could be attempted; a file shorter than the 56-byte header also fails;
concretely, corrupted variants of a well-formed image are rejected at
open while the intact image is accepted. -/
theorem gff_parse_fail_fast :
    (∀ (data : List Nat) (lang : Nat) (hdr : GFF_HEADER),
      parseGffHeader data = some hdr →
      (hdr.FileType ≠ GFF_MAGIC ∨ hdr.Version ≠ GFF_VERSION_V32 ∨
       ¬ hdr.StructOffset + hdr.StructCount * GFF_STRUCT_ENTRY_SIZE ≤ data.length ∨
       ¬ hdr.FieldOffset + hdr.FieldCount * GFF_FIELD_ENTRY_SIZE ≤ data.length ∨
       ¬ hdr.LabelOffset + hdr.LabelCount * GFF_LABEL_ENTRY_SIZE ≤ data.length ∨
       ¬ hdr.FieldDataOffset + hdr.FieldDataCount ≤ data.length ∨
       ¬ hdr.FieldIndiciesOffset + hdr.FieldIndiciesCount ≤ data.length ∨
       ¬ hdr.ListIndiciesOffset + hdr.ListIndiciesCount ≤ data.length) →
      ParseGffFile data lang = none) ∧
    (∀ (data : List Nat) (lang : Nat), data.length < GFF_HEADER_SIZE →
      ParseGffFile data lang = none) ∧
    ParseGffFile badMagicFile 0 = none ∧
    ParseGffFile badVersionFile 0 = none ∧
    ParseGffFile truncatedFile 0 = none ∧
    ParseGffFile dw64Reader.Data 0 = some dw64Reader := by
  refine ⟨?_, ?_, by decide, by decide, by decide, by decide⟩
  · intro data lang hdr hh hbad
    unfold ParseGffFile
    rw [hh]
    dsimp only
    rw [if_neg]
    intro hc
    obtain ⟨c1, c2, c3, c4, c5, c6, c7, c8, -⟩ := hc
    rcases hbad with h | h | h | h | h | h | h | h
    · exact h c1
    · exact h c2
    · exact h c3
    · exact h c4
    · exact h c5
    · exact h c6
    · exact h c7
    · exact h c8
  · intro data lang hlen
    unfold ParseGffFile parseGffHeader
    rw [if_neg (by omega)]

/-- C6 witness: the header-length clause applied to the empty file. -/
theorem gff_parse_fail_fast_witness :
    ParseGffFile [] 0 = none :=
  gff_parse_fail_fast.2.1 [] 0 (by decide)

theorem GetSmallFieldByName_inline (r : GffFileReaderState) (s : GFF_STRUCT_ENTRY)
    (name : List Nat) (fe : GFF_FIELD_ENTRY) (t sz : Nat)
    (h : GetFieldByName r s name = some fe) (ht : fe.TypeTag = t) :
    GetSmallFieldByName r s t sz name = some (fe.DataOrDataOffset % 256 ^ sz) := by
  unfold GetSmallFieldByName
  rw [h]
  simp [ht]

theorem GetLargeFieldByName_reads_blob (r : GffFileReaderState) (s : GFF_STRUCT_ENTRY)
    (name : List Nat) (fe : GFF_FIELD_ENTRY) (t sz : Nat)
    (h : GetFieldByName r s name = some fe) (ht : fe.TypeTag = t)
    (hb : fe.DataOrDataOffset + sz ≤ r.Header.FieldDataCount) :
    GetLargeFieldByName r s t sz name =
      (readBytes r.Data (r.Header.FieldDataOffset + fe.DataOrDataOffset) sz).map leVal := by
  unfold GetLargeFieldByName GetLargeFieldData ValidateFieldDataRange ReadFieldData
  rw [h]
  simp [ht, hb]

/-- C7: interpretation of a field entry `DataOrDataOffset`.  For types
whose payload is at most 4 bytes (BYTE/CHAR one byte, WORD/SHORT two,
DWORD/INT/FLOAT four) the value is decoded inline from the low bytes of
`DataOrDataOffset` itself; for larger types (INT64, DOUBLE here)
`DataOrDataOffset` is an offset into the field-data blob from which the
payload bytes are read; and for LIST-typed fields it is a byte offset
into the list-index array, where a u32 count is followed by the u32
struct indices of the elements. -/
theorem gff_data_or_offset_interpretation (r : GffFileReaderState)
    (s : GFF_STRUCT_ENTRY) (name : List Nat) (fe : GFF_FIELD_ENTRY)
    (h : GetFieldByName r s name = some fe) :
    (fe.TypeTag = GFF_BYTE → GetBYTE r s name = some (fe.DataOrDataOffset % 256)) ∧
    (fe.TypeTag = GFF_CHAR → GetCHAR r s name = some (fe.DataOrDataOffset % 256)) ∧
    (fe.TypeTag = GFF_WORD → GetWORD r s name = some (fe.DataOrDataOffset % 65536)) ∧
    (fe.TypeTag = GFF_SHORT → GetSHORT r s name = some (fe.DataOrDataOffset % 65536)) ∧
    (fe.TypeTag = GFF_DWORD → GetDWORD r s name = some (fe.DataOrDataOffset % 4294967296)) ∧
    (fe.TypeTag = GFF_INT → GetINT r s name = some (fe.DataOrDataOffset % 4294967296)) ∧
    (fe.TypeTag = GFF_FLOAT → GetFLOAT r s name = some (fe.DataOrDataOffset % 4294967296)) ∧
    (fe.TypeTag = GFF_INT64 → fe.DataOrDataOffset + 8 ≤ r.Header.FieldDataCount →
      GetINT64 r s name =
        (readBytes r.Data (r.Header.FieldDataOffset + fe.DataOrDataOffset) 8).map leVal) ∧
    (fe.TypeTag = GFF_DOUBLE → fe.DataOrDataOffset + 8 ≤ r.Header.FieldDataCount →
      GetDOUBLE r s name =
        (readBytes r.Data (r.Header.FieldDataOffset + fe.DataOrDataOffset) 8).map leVal) ∧
    (fe.TypeTag = GFF_LIST → ∀ i cntB,
      fe.DataOrDataOffset + 4 ≤ r.Header.ListIndiciesCount →
      readBytes r.Data (r.Header.ListIndiciesOffset + fe.DataOrDataOffset) 4 = some cntB →
      i < leVal cntB →
      fe.DataOrDataOffset + 8 + 4 * i ≤ r.Header.ListIndiciesCount →
      GetListElement r s name i =
        (readU32 r.Data
          (r.Header.ListIndiciesOffset + fe.DataOrDataOffset + 4 + 4 * i)).bind
          (fun si => GetStructByIndex r si)) := by
  refine ⟨?_, ?_, ?_, ?_, ?_, ?_, ?_, ?_, ?_, ?_⟩
  · intro ht
    unfold GetBYTE
    rw [GetSmallFieldByName_inline r s name fe _ 1 h ht]
    norm_num
  · intro ht
    unfold GetCHAR
    rw [GetSmallFieldByName_inline r s name fe _ 1 h ht]
    norm_num
  · intro ht
    unfold GetWORD
    rw [GetSmallFieldByName_inline r s name fe _ 2 h ht]
    norm_num
  · intro ht
    unfold GetSHORT
    rw [GetSmallFieldByName_inline r s name fe _ 2 h ht]
    norm_num
  · intro ht
    unfold GetDWORD
    rw [GetSmallFieldByName_inline r s name fe _ 4 h ht]
    norm_num
  · intro ht
    unfold GetINT
    rw [GetSmallFieldByName_inline r s name fe _ 4 h ht]
    norm_num
  · intro ht
    unfold GetFLOAT
    rw [GetSmallFieldByName_inline r s name fe _ 4 h ht]
    norm_num
  · intro ht hb
    unfold GetINT64
    exact GetLargeFieldByName_reads_blob r s name fe _ 8 h ht hb
  · intro ht hb
    unfold GetDOUBLE
    exact GetLargeFieldByName_reads_blob r s name fe _ 8 h ht hb
  · intro ht i cntB hb1 hcnt hi hb2
    unfold GetListElement GetListIndiciesData
    rw [h]
    simp only [ht, GFF_LIST, if_pos rfl, Nat.add_zero]
    rw [if_pos hb1, hcnt]
    dsimp only
    rw [if_pos hi]
    rw [if_pos (show fe.DataOrDataOffset + (4 + 4 * i) + 4 ≤
      r.Header.ListIndiciesCount by omega)]
    rw [show r.Header.ListIndiciesOffset + fe.DataOrDataOffset + (4 + 4 * i) =
      r.Header.ListIndiciesOffset + fe.DataOrDataOffset + 4 + 4 * i by omega]
    unfold readU32
    cases hrb : readBytes r.Data
        (r.Header.ListIndiciesOffset + fe.DataOrDataOffset + 4 + 4 * i) 4 with
    | none => simp
    | some b => simp

/-- C7 witness: the inline-DWORD clause and the list clause evaluated on
the two-field image — `ABC` yields its inline value and the `Lst` field second
element is the struct whose index sits at byte offset 8 of the
list-index array. -/
theorem gff_data_or_offset_interpretation_witness :
    GetDWORD multiReader multiRoot nmABC = some (7 % 4294967296) ∧
    GetListElement multiReader multiRoot nmLst 1 =
      (readU32 multiReader.Data
        (multiReader.Header.ListIndiciesOffset + 0 + 4 + 4 * 1)).bind
        (fun si => GetStructByIndex multiReader si) :=
  ⟨(gff_data_or_offset_interpretation multiReader multiRoot nmABC
      { TypeTag := GFF_DWORD, LabelIndex := 0, DataOrDataOffset := 7 }
      (by decide)).2.2.2.2.1 (by decide),
   (gff_data_or_offset_interpretation multiReader multiRoot nmLst
      { TypeTag := GFF_LIST, LabelIndex := 1, DataOrDataOffset := 0 }
      (by decide)).2.2.2.2.2.2.2.2.2 (by decide) 1 (u32le 2) (by decide)
      (by decide) (by decide) (by decide)⟩

theorem GetLabelByIndex_nul_bounded (r : GffFileReaderState) (i : Nat)
    (l : List Nat) (h : GetLabelByIndex r i = some l) :
    l.length ≤ 16 ∧ ∀ b ∈ l, b ≠ 0 := by
  unfold GetLabelByIndex at h
  by_cases hi : i < r.Header.LabelCount
  · rw [if_pos hi] at h
    cases hrb : readBytes r.Data
        (r.Header.LabelOffset + GFF_LABEL_ENTRY_SIZE * i) GFF_LABEL_ENTRY_SIZE with
    | none => rw [hrb] at h; cases h
    | some bs =>
      rw [hrb] at h
      simp only [Option.map_some', Option.some.injEq] at h
      subst h
      constructor
      · calc (bs.takeWhile (fun b => b ≠ 0)).length
            ≤ bs.length := (List.takeWhile_sublist _).length_le
          _ ≤ 16 := by
              unfold readBytes at hrb
              by_cases hb : r.Header.LabelOffset + GFF_LABEL_ENTRY_SIZE * i +
                  GFF_LABEL_ENTRY_SIZE ≤ r.Data.length
              · rw [if_pos hb] at hrb
                cases hrb
                rw [List.length_take]
                exact le_trans (min_le_left _ _) (by norm_num [GFF_LABEL_ENTRY_SIZE])
              · rw [if_neg hb] at hrb; cases hrb
      · intro b hb
        have := List.mem_takeWhile_imp hb
        simpa using this
  · rw [if_neg hi] at h; cases h

/-- C8: field lookup by name compares labels case-sensitively and stops
at the first match.  Any fetched label is at most 16 bytes with the NUL
terminator and everything after it stripped; if the first candidate
field label equals the requested name byte-for-byte, the walk answers
that field without inspecting the rest of the index set; concretely,
looking up `"ABC"` finds the field while `"abc"` finds nothing, and in a
struct with two fields both labelled `"X"`, lookup returns the first. -/
theorem gff_label_lookup_case_sensitive_first_match :
    (∀ (r : GffFileReaderState) (i : Nat) (l : List Nat),
      GetLabelByIndex r i = some l → l.length ≤ 16 ∧ ∀ b ∈ l, b ≠ 0) ∧
    (∀ (r : GffFileReaderState) (name : List Nat) (fi : Nat) (rest : List Nat)
      (fe : GFF_FIELD_ENTRY),
      GetFieldEntryByIndex r fi = some fe →
      GetLabelByIndex r fe.LabelIndex = some name →
      findFieldAux r name (fi :: rest) = some fe) ∧
    GetFieldByName multiReader multiRoot nmABC =
      some { TypeTag := GFF_DWORD, LabelIndex := 0, DataOrDataOffset := 7 } ∧
    GetFieldByName multiReader multiRoot nmabc = none ∧
    GetFieldByName dupReader dupRoot nmX =
      some { TypeTag := GFF_BYTE, LabelIndex := 0, DataOrDataOffset := 1 } := by
  refine ⟨GetLabelByIndex_nul_bounded, ?_, by decide, by decide, by decide⟩
  intro r name fi rest fe hfe hla
  unfold findFieldAux
  rw [hfe]
  dsimp only
  rw [hla]
  simp

/-- C8 witness: the walk on the duplicate-label image stops at the first
field even when the remaining candidate indices are garbage, and the
fetched label `"ABC"` respects the 16-byte bound. -/
theorem gff_label_lookup_case_sensitive_first_match_witness :
    findFieldAux dupReader nmX [0, 3, 7] =
      some { TypeTag := GFF_BYTE, LabelIndex := 0, DataOrDataOffset := 1 } ∧
    nmABC.length ≤ 16 :=
  ⟨gff_label_lookup_case_sensitive_first_match.2.1 dupReader nmX 0 [3, 7]
      { TypeTag := GFF_BYTE, LabelIndex := 0, DataOrDataOffset := 1 }
      (by decide) (by decide),
   (gff_label_lookup_case_sensitive_first_match.1 multiReader 0 nmABC (by decide)).1⟩

theorem readU32_in_bounds (data : List Nat) (off : Nat)
    (h : off + 4 ≤ data.length) : readU32 data off = some (u32At data off) := by
  unfold readU32 readBytes u32At
  rw [if_pos h]
  rfl

/-- C9: the decoded GFF header is exactly 56 bytes — the two four-byte
tags followed by the twelve little-endian u32 table descriptors in
declared order at byte offsets 8, 12, …, 52 — a shorter file has no
header; struct entries are 12 bytes, field entries 12 bytes, and label
entries 16 bytes: entry `i` of each table is decoded from the u32s (or
the 16-byte slab) at `table offset + stride * i`. -/
theorem gff_ondisk_layout :
    GFF_HEADER_SIZE = 56 ∧ GFF_STRUCT_ENTRY_SIZE = 12 ∧
    GFF_FIELD_ENTRY_SIZE = 12 ∧ GFF_LABEL_ENTRY_SIZE = 16 ∧
    (∀ (data : List Nat) (hdr : GFF_HEADER), parseGffHeader data = some hdr →
      GFF_HEADER_SIZE ≤ data.length ∧
      readU32 data 0 = some hdr.FileType ∧
      readU32 data 4 = some hdr.Version ∧
      readU32 data 8 = some hdr.StructOffset ∧
      readU32 data 12 = some hdr.StructCount ∧
      readU32 data 16 = some hdr.FieldOffset ∧
      readU32 data 20 = some hdr.FieldCount ∧
      readU32 data 24 = some hdr.LabelOffset ∧
      readU32 data 28 = some hdr.LabelCount ∧
      readU32 data 32 = some hdr.FieldDataOffset ∧
      readU32 data 36 = some hdr.FieldDataCount ∧
      readU32 data 40 = some hdr.FieldIndiciesOffset ∧
      readU32 data 44 = some hdr.FieldIndiciesCount ∧
      readU32 data 48 = some hdr.ListIndiciesOffset ∧
      readU32 data 52 = some hdr.ListIndiciesCount) ∧
    (∀ data : List Nat, data.length < GFF_HEADER_SIZE → parseGffHeader data = none) ∧
    (∀ (r : GffFileReaderState) (i : Nat) (e : GFF_STRUCT_ENTRY),
      GetStructByIndex r i = some e →
      readU32 r.Data (r.Header.StructOffset + GFF_STRUCT_ENTRY_SIZE * i) = some e.TypeTag ∧
      readU32 r.Data (r.Header.StructOffset + GFF_STRUCT_ENTRY_SIZE * i + 4) =
        some e.DataOrDataOffset ∧
      readU32 r.Data (r.Header.StructOffset + GFF_STRUCT_ENTRY_SIZE * i + 8) =
        some e.FieldCount) ∧
    (∀ (r : GffFileReaderState) (i : Nat) (e : GFF_FIELD_ENTRY),
      GetFieldEntryByIndex r i = some e →
      readU32 r.Data (r.Header.FieldOffset + GFF_FIELD_ENTRY_SIZE * i) = some e.TypeTag ∧
      readU32 r.Data (r.Header.FieldOffset + GFF_FIELD_ENTRY_SIZE * i + 4) =
        some e.LabelIndex ∧
      readU32 r.Data (r.Header.FieldOffset + GFF_FIELD_ENTRY_SIZE * i + 8) =
        some e.DataOrDataOffset) ∧
    (∀ (r : GffFileReaderState) (i : Nat) (l : List Nat),
      GetLabelByIndex r i = some l →
      ∃ bs, readBytes r.Data (r.Header.LabelOffset + GFF_LABEL_ENTRY_SIZE * i)
          GFF_LABEL_ENTRY_SIZE = some bs ∧
        bs.length = 16 ∧ l = bs.takeWhile (fun b => b ≠ 0)) := by
  refine ⟨rfl, rfl, rfl, rfl, ?_, ?_, ?_, ?_, ?_⟩
  · intro data hdr hh
    unfold parseGffHeader at hh
    by_cases hl : GFF_HEADER_SIZE ≤ data.length
    · rw [if_pos hl] at hh
      cases hh
      have h56 : 56 ≤ data.length := hl
      exact ⟨hl, readU32_in_bounds data 0 (by omega),
        readU32_in_bounds data 4 (by omega), readU32_in_bounds data 8 (by omega),
        readU32_in_bounds data 12 (by omega), readU32_in_bounds data 16 (by omega),
        readU32_in_bounds data 20 (by omega), readU32_in_bounds data 24 (by omega),
        readU32_in_bounds data 28 (by omega), readU32_in_bounds data 32 (by omega),
        readU32_in_bounds data 36 (by omega), readU32_in_bounds data 40 (by omega),
        readU32_in_bounds data 44 (by omega), readU32_in_bounds data 48 (by omega),
        readU32_in_bounds data 52 (by omega)⟩
    · rw [if_neg hl] at hh; cases hh
  · intro data hlen
    unfold parseGffHeader
    rw [if_neg (by unfold GFF_HEADER_SIZE at hlen ⊢; omega)]
  · intro r i e h
    unfold GetStructByIndex at h
    by_cases hi : i < r.Header.StructCount
    · rw [if_pos hi] at h
      cases h1 : readU32 r.Data (r.Header.StructOffset + GFF_STRUCT_ENTRY_SIZE * i) with
      | none => rw [h1] at h; simp at h
      | some t =>
        rw [h1] at h
        cases h2 : readU32 r.Data
            (r.Header.StructOffset + GFF_STRUCT_ENTRY_SIZE * i + 4) with
        | none => rw [h2] at h; simp at h
        | some d =>
          rw [h2] at h
          cases h3 : readU32 r.Data
              (r.Header.StructOffset + GFF_STRUCT_ENTRY_SIZE * i + 8) with
          | none => rw [h3] at h; simp at h
          | some c =>
            rw [h3] at h
            cases h
            exact ⟨rfl, rfl, rfl⟩
    · rw [if_neg hi] at h; cases h
  · intro r i e h
    unfold GetFieldEntryByIndex at h
    by_cases hi : i < r.Header.FieldCount
    · rw [if_pos hi] at h
      cases h1 : readU32 r.Data (r.Header.FieldOffset + GFF_FIELD_ENTRY_SIZE * i) with
      | none => rw [h1] at h; simp at h
      | some t =>
        rw [h1] at h
        cases h2 : readU32 r.Data
            (r.Header.FieldOffset + GFF_FIELD_ENTRY_SIZE * i + 4) with
        | none => rw [h2] at h; simp at h
        | some li =>
          rw [h2] at h
          cases h3 : readU32 r.Data
              (r.Header.FieldOffset + GFF_FIELD_ENTRY_SIZE * i + 8) with
          | none => rw [h3] at h; simp at h
          | some d =>
            rw [h3] at h
            cases h
            exact ⟨rfl, rfl, rfl⟩
    · rw [if_neg hi] at h; cases h
  · intro r i l h
    unfold GetLabelByIndex at h
    by_cases hi : i < r.Header.LabelCount
    · rw [if_pos hi] at h
      cases hrb : readBytes r.Data
          (r.Header.LabelOffset + GFF_LABEL_ENTRY_SIZE * i) GFF_LABEL_ENTRY_SIZE with
      | none => rw [hrb] at h; cases h
      | some bs =>
        rw [hrb] at h
        simp only [Option.map_some', Option.some.injEq] at h
        refine ⟨bs, rfl, ?_, h.symm⟩
        unfold readBytes at hrb
        by_cases hb : r.Header.LabelOffset + GFF_LABEL_ENTRY_SIZE * i +
            GFF_LABEL_ENTRY_SIZE ≤ r.Data.length
        · rw [if_pos hb] at hrb
          cases hrb
          rw [List.length_take, List.length_drop]
          unfold GFF_LABEL_ENTRY_SIZE at hb ⊢
          omega
        · rw [if_neg hb] at hrb; cases hrb
    · rw [if_neg hi] at h; cases h

/-- C9 witness: the layout clauses evaluated on the two-field image — the
struct-table stride places the type tag of struct entry 1 at byte offset
`StructOffset + 12`, and the header `FieldOffset` descriptor sits at
byte offset 16. -/
theorem gff_ondisk_layout_witness :
    readU32 multiReader.Data (multiReader.Header.StructOffset +
      GFF_STRUCT_ENTRY_SIZE * 1) = some 101 ∧
    readU32 multiFile 16 = some multiHeader.FieldOffset :=
  ⟨(gff_ondisk_layout.2.2.2.2.2.2.1 multiReader 1
      { TypeTag := 101, DataOrDataOffset := 0, FieldCount := 0 } (by decide)).1,
   ((gff_ondisk_layout.2.2.2.2.1 multiFile multiHeader (by decide)).2.2.2.2.2.1)⟩

end GffReader
